import Mathlib

/-!
Shallow embedding of the DeepSix dive-log parser (src/src/deepsix_parser.c and
the generic parser layer src/src/parser.c) from the libdc-plusplus repository.

Buffers are lists of bytes (`List Nat`, each element an `unsigned char` value);
`double` arithmetic is modelled over `ℚ`; the C status codes, field types and
sample types are inductive enumerations.  The headers `field-cache.h` and
`libdivecomputer/parser.h` are part of the repository but absent from the
excerpt, so the cache macros, the fact-type enumeration and `MAXGASES` are
modelled from the specification (each such definition is marked in its doc
comment).
-/

/-- The shared status taxonomy (`dc_status_t`) used by the parser layer. -/
inductive dc_status_t where
  | SUCCESS
  | UNSUPPORTED
  | INVALIDARGS
  | NOMEMORY
  | IOERROR
  deriving DecidableEq, Repr

/-- Modelled from the spec: the fixed fact-type enumeration (`dc_field_type_t`
from `libdivecomputer/parser.h`, absent from the excerpt); the numbering below
follows the upstream declaration order and is only used as bit positions in the
presence bitmask. -/
inductive dc_field_type_t where
  | DIVETIME
  | MAXDEPTH
  | AVGDEPTH
  | GASMIX_COUNT
  | GASMIX
  | SALINITY
  | ATMOSPHERIC
  | TEMPERATURE_SURFACE
  | TEMPERATURE_MINIMUM
  | TEMPERATURE_MAXIMUM
  | TANK_COUNT
  | TANK
  | DIVEMODE
  | STRING
  deriving DecidableEq, Repr

/-- Modelled from the spec: numeric value of each fact type, the bit position
used by `1 << type` in `deepsix_parser_get_field` and by the assignment macros
of `field-cache.h`. -/
def dc_field_type_t.toNat : dc_field_type_t → Nat
  | .DIVETIME => 0
  | .MAXDEPTH => 1
  | .AVGDEPTH => 2
  | .GASMIX_COUNT => 3
  | .GASMIX => 4
  | .SALINITY => 5
  | .ATMOSPHERIC => 6
  | .TEMPERATURE_SURFACE => 7
  | .TEMPERATURE_MINIMUM => 8
  | .TEMPERATURE_MAXIMUM => 9
  | .TANK_COUNT => 10
  | .TANK => 11
  | .DIVEMODE => 12
  | .STRING => 13

/-- `dc_divemode_t` values used by the DeepSix parser. -/
inductive dc_divemode_t where
  | FREEDIVE
  | GAUGE
  | OC
  | CCR
  deriving DecidableEq, Repr

/-- `dc_gasmix_t`: breathing-gas fractions; `deepsix_parser_set_data` only ever
writes the oxygen fraction of a zero-initialised mix. -/
structure dc_gasmix_t where
  helium : ℚ
  oxygen : ℚ
  nitrogen : ℚ
  deriving DecidableEq, Repr

/-- The zero-initialised gas mix (`dc_gasmix_t gasmix = {0, }`). -/
def dc_gasmix_t.zero : dc_gasmix_t := ⟨0, 0, 0⟩

/-- Modelled from the spec: `MAXGASES`, the fixed capacity of the indexed
gas-mix storage in `field-cache.h` ("indexed storage up to a fixed maximum
(e.g., 16 entries)"). -/
def MAXGASES : Nat := 16

/-- Modelled from the spec: `struct dc_field_cache` from `field-cache.h` — a
presence bitmask (`initialized`, one bit per fact type) plus storage for each
scalar fact, indexed gas-mix storage up to `MAXGASES`, and free-text strings.
Only the members the DeepSix parser touches are carried. -/
structure dc_field_cache where
  initialized : Nat
  DIVETIME : Nat
  MAXDEPTH : ℚ
  AVGDEPTH : ℚ
  GASMIX_COUNT : Nat
  GASMIX : Fin MAXGASES → dc_gasmix_t
  SALINITY : ℚ
  ATMOSPHERIC : ℚ
  DIVEMODE : dc_divemode_t
  strings : List (String × String)

/-- The zeroed cache produced by `memset(&deepsix->cache, 0, ...)`. -/
def dc_field_cache.zero : dc_field_cache :=
  { initialized := 0
    DIVETIME := 0
    MAXDEPTH := 0
    AVGDEPTH := 0
    GASMIX_COUNT := 0
    GASMIX := fun _ => dc_gasmix_t.zero
    SALINITY := 0
    ATMOSPHERIC := 0
    DIVEMODE := .FREEDIVE
    strings := [] }

/-- Modelled from the spec: `DC_ASSIGN_FIELD`-style presence update — assigning
a fact sets its presence bit in the bitmask. -/
def dc_field_cache.setBit (c : dc_field_cache) (t : dc_field_type_t) : Nat :=
  c.initialized ||| (1 <<< t.toNat)

/-- The presence test `cache.initialized & (1 << type)` from
`deepsix_parser_get_field`. -/
def dc_field_cache.hasBit (c : dc_field_cache) (t : dc_field_type_t) : Bool :=
  c.initialized.testBit t.toNat

/-- The DeepSix parser instance (`deepsix_parser_t` plus the `dc_parser_t` base
members `data`/`size` that `dc_parser_set_data` maintains).  `callback` records
whether a non-NULL callback pointer is stored on the instance. -/
structure deepsix_parser_t where
  data : List Nat
  size : Nat
  callback : Bool
  sample_interval : Nat
  cache : dc_field_cache

/-- `deepsix_parser_create` via `dc_parser_allocate` (src/src/parser.c:235):
`malloc` leaves `sample_interval` and the cache uninitialised, so creation
takes those indeterminate initial contents as parameters; the base members are
initialised to `data = NULL, size = 0`. -/
def deepsix_parser_create (cache0 : dc_field_cache) (si0 : Nat) : deepsix_parser_t :=
  { data := []
    size := 0
    callback := false
    sample_interval := si0
    cache := cache0 }

/-- Byte read `data[i]` on the modelled buffer. -/
def byteAt (data : List Nat) (i : Nat) : Nat := data.getD i 0

/-- Little-endian 16-bit read `data[o] + 256*data[o+1]` as written in
`deepsix_parser_set_data` and `deepsix_parser_samples_foreach`. -/
def le16 (data : List Nat) (o : Nat) : Nat := byteAt data o + 256 * byteAt data (o + 1)

/-- `pressure_to_depth` (src/src/deepsix_parser.c:89): millibar of absolute
pressure to metres of seawater, with `double` arithmetic modelled over `ℚ`. -/
def pressure_to_depth (mbar : Nat) : ℚ :=
  -- Specific weight of seawater (millibar to cm)
  let specific_weight : ℚ := 1.024 * 0.980665
  -- Absolute pressure, subtract surface pressure
  if mbar < 1013 then 0.0
  else ((mbar - 1013 : Nat) : ℚ) / specific_weight / 100.0

/-- `deepsix_parser_set_data` (src/src/deepsix_parser.c:102): the vtable
implementation.  Returns the status and the updated instance. -/
def deepsix_parser_set_data (p : deepsix_parser_t) (data : List Nat)
    (size : Nat) : dc_status_t × deepsix_parser_t :=
  if size < 256 then (.IOERROR, p)
  else
    let p := { p with callback := false, cache := dc_field_cache.zero }
    -- LE16 at 12 is the dive time; seconds for freedives, minutes for scuba/gauge
    let divetime := le16 data 12
    -- Byte at 2 is the activity type (2 = scuba, 3 = gauge, 4 = freedive)
    let (divetime, cache, si) :=
      match byteAt data 2 with
      | 2 =>
        let gasmix := { dc_gasmix_t.zero with oxygen := (byteAt data 3 : ℚ) / 100.0 }
        let c := { p.cache with
          GASMIX := Function.update p.cache.GASMIX ⟨0, by decide⟩ gasmix }
        let c := { c with initialized := c.setBit .GASMIX }
        let c := { c with GASMIX_COUNT := 1, initialized := c.setBit .GASMIX_COUNT }
        let c := { c with DIVEMODE := .OC, initialized := c.setBit .DIVEMODE }
        (divetime * 60, c, p.sample_interval)
      | 3 =>
        let c := { p.cache with DIVEMODE := .GAUGE }
        let c := { c with initialized := c.setBit .DIVEMODE }
        (divetime * 60, c, p.sample_interval)
      | 4 =>
        let c := { p.cache with DIVEMODE := .FREEDIVE }
        let c := { c with initialized := c.setBit .DIVEMODE }
        (divetime, c, 1)
      | _ =>
        -- unknown activity type: logged, otherwise ignored
        (divetime, p.cache, p.sample_interval)
    -- fixed at 20s for scuba, 1s for freedive; always overwritten from hdr[26]
    let si := byteAt data 26
    let maxpressure := le16 data 22
    let cache := { cache with DIVETIME := divetime }
    let cache := { cache with initialized := cache.setBit .DIVETIME }
    let cache := { cache with MAXDEPTH := pressure_to_depth maxpressure }
    let cache := { cache with initialized := cache.setBit .MAXDEPTH }
    (.SUCCESS, { p with sample_interval := si, cache := cache })

/-- `dc_parser_set_data` (src/src/parser.c:285): stores `data`/`size` on the
base instance before delegating to the vtable implementation. -/
def dc_parser_set_data (p : deepsix_parser_t) (data : List Nat)
    (size : Nat) : dc_status_t × deepsix_parser_t :=
  deepsix_parser_set_data { p with data := data, size := size } data size

/-- The value written through the `void *value` output pointer of `get_field`,
tagged by the C type each case writes. -/
inductive dc_field_value where
  | uint (n : Nat)
  | double (q : ℚ)
  | gasmix (g : dc_gasmix_t)
  | divemode (m : dc_divemode_t)
  | str (s : String × String)
  deriving DecidableEq, Repr

/-- Modelled from the spec: the cache's indexed read used by `DC_FIELD_INDEX`
in `field-cache.h` — "`get_indexed(type, index)` fail unsupported if unset,
invalid-argument if `index` exceeds the recorded count". -/
def dc_field_cache.get_indexed (c : dc_field_cache) (idx : Nat) :
    dc_status_t × Option dc_field_value :=
  if h : idx < c.GASMIX_COUNT ∧ idx < MAXGASES then
    (.SUCCESS, some (.gasmix (c.GASMIX ⟨idx, h.2⟩)))
  else (.INVALIDARGS, none)

/-- Modelled from the spec: `dc_field_get_string` from `field-cache.c` — the
indexed read of the free-text string facts. -/
def dc_field_get_string (c : dc_field_cache) (idx : Nat) :
    dc_status_t × Option dc_field_value :=
  match c.strings[idx]? with
  | some s => (.SUCCESS, some (.str s))
  | none => (.UNSUPPORTED, none)

/-- `deepsix_parser_get_field` (src/src/deepsix_parser.c:204).  `value_nonnull`
records whether the `void *value` output pointer is non-NULL; the returned
option is the value written through it. -/
def deepsix_parser_get_field (p : deepsix_parser_t) (type : dc_field_type_t)
    (flags : Nat) (value_nonnull : Bool) : dc_status_t × Option dc_field_value :=
  if !value_nonnull then (.INVALIDARGS, none)
  else if !(p.cache.hasBit type) then (.UNSUPPORTED, none)
  else
    match type with
    | .DIVETIME => (.SUCCESS, some (.uint p.cache.DIVETIME))
    | .MAXDEPTH => (.SUCCESS, some (.double p.cache.MAXDEPTH))
    | .AVGDEPTH => (.SUCCESS, some (.double p.cache.AVGDEPTH))
    | .GASMIX_COUNT => (.SUCCESS, some (.uint p.cache.GASMIX_COUNT))
    | .TANK_COUNT => (.SUCCESS, some (.uint p.cache.GASMIX_COUNT))
    | .GASMIX =>
      if MAXGASES ≤ flags then (.UNSUPPORTED, none)
      else p.cache.get_indexed flags
    | .SALINITY => (.SUCCESS, some (.double p.cache.SALINITY))
    | .ATMOSPHERIC => (.SUCCESS, some (.double p.cache.ATMOSPHERIC))
    | .DIVEMODE => (.SUCCESS, some (.divemode p.cache.DIVEMODE))
    | .TANK => (.UNSUPPORTED, none)
    | .STRING => dc_field_get_string p.cache flags
    | _ => (.UNSUPPORTED, none)

/-- The sample tags the DeepSix parser delivers (`dc_sample_type_t`). -/
inductive dc_sample_type_t where
  | TIME
  | DEPTH
  | TEMPERATURE
  deriving DecidableEq, Repr

/-- The member of the `dc_sample_value_t` union read by the callback for each
tag delivered by the DeepSix parser. -/
inductive dc_sample_value_t where
  | time (seconds : Nat)
  | depth (metres : ℚ)
  | temperature (celsius : ℚ)
  deriving DecidableEq, Repr

/-- One iteration of the sample loop in `deepsix_parser_samples_foreach`
(src/src/deepsix_parser.c:263): reads the 4-byte record at offset `4*i` of the
body (the data pointer advanced past the header) and performs the three
guarded callback deliveries for 0-based record index `i`. -/
def sample_iteration (body : List Nat) (interval : Nat) (cb : Bool) (i : Nat) :
    List (dc_sample_type_t × dc_sample_value_t) :=
  let temp := byteAt body (4*i) + 256 * byteAt body (4*i + 1)
  let pressure := byteAt body (4*i + 2) + 256 * byteAt body (4*i + 3)
  if cb then
    [(.TIME, .time ((i + 1) * interval)),
     (.DEPTH, .depth (pressure_to_depth pressure)),
     (.TEMPERATURE, .temperature ((temp : ℚ) / 10.0))]
  else []

/-- The sample loop `for (i = 0; i < len/4; i++)`: the concatenation of the
deliveries of iterations `0 .. n-1`, in order. -/
def sample_loop (body : List Nat) (interval : Nat) (cb : Bool) : Nat → List (dc_sample_type_t × dc_sample_value_t)
  | 0 => []
  | n + 1 => sample_loop body interval cb n ++ sample_iteration body interval cb n

/-- `deepsix_parser_samples_foreach` (src/src/deepsix_parser.c:246).  `cb`
records whether the callback pointer is non-NULL; the middle component is the
ordered list of callback deliveries performed. -/
def deepsix_parser_samples_foreach (p : deepsix_parser_t) (cb : Bool) :
    dc_status_t × List (dc_sample_type_t × dc_sample_value_t) × deepsix_parser_t :=
  let p := { p with callback := cb }
  if p.size < 256 then (.IOERROR, [], p)
  else
    let body := p.data.drop 256
    let len := p.size - 256
    (.SUCCESS, sample_loop body p.sample_interval cb (len / 4), p)

/-- The exact value of the depth conversion at 2013 mbar. -/
lemma pressure_to_depth_2013 : pressure_to_depth 2013 = 1953125 / 196133 := by
  norm_num [pressure_to_depth]

/-- C2, counterexample: the depth conversion maps 2013 mbar to
1953125/196133 ≈ 9.958 m, which is not within 0.01 m of the claimed 9.93 m. -/
theorem C2_counterexample : ¬ (|pressure_to_depth 2013 - 9.93| ≤ 0.01) := by
  rw [pressure_to_depth_2013, abs_le]
  norm_num

/-- C2 (amended): the depth conversion maps any pressure strictly below
1013 mbar to 0, maps exactly 1013 mbar to 0, maps 2013 mbar to approximately
9.96 m within 0.01 m, and follows the formula
`(value - 1013) / (1.024 * 0.980665) / 100` for values at or above 1013. -/
theorem C2_pressure_to_depth_spec :
    (∀ mbar : Nat, mbar < 1013 → pressure_to_depth mbar = 0) ∧
    pressure_to_depth 1013 = 0 ∧
    |pressure_to_depth 2013 - 9.96| ≤ 0.01 ∧
    (∀ mbar : Nat, 1013 ≤ mbar →
      pressure_to_depth mbar = ((mbar : ℚ) - 1013) / (1.024 * 0.980665) / 100) := by
  refine ⟨fun mbar h => by simp only [pressure_to_depth, if_pos h]; norm_num,
    by norm_num [pressure_to_depth], ?_, ?_⟩
  · rw [pressure_to_depth_2013, abs_le]
    norm_num
  · intro mbar h
    have hlt : ¬ mbar < 1013 := Nat.not_lt.mpr h
    simp only [pressure_to_depth, if_neg hlt]
    have : ((mbar - 1013 : Nat) : ℚ) = (mbar : ℚ) - 1013 := by
      push_cast [h]
      ring
    rw [this]
    norm_num

/-- C2, witness: the amended theorem applied at 500 mbar (below surface
pressure) and at 2013 mbar (formula branch). -/
theorem C2_witness :
    pressure_to_depth 500 = 0 ∧
    pressure_to_depth 2013 = ((2013 : ℚ) - 1013) / (1.024 * 0.980665) / 100 :=
  ⟨C2_pressure_to_depth_spec.1 500 (by decide),
   C2_pressure_to_depth_spec.2.2.2 2013 (by decide)⟩

/-- A successful `dc_parser_set_data` reports success and leaves the base
buffer reference, the size and the sample interval as the source assigns them,
whatever the activity-type branch taken. -/
lemma dc_parser_set_data_base (p : deepsix_parser_t) (data : List Nat) (size : Nat)
    (h : ¬ size < 256) :
    (dc_parser_set_data p data size).1 = .SUCCESS ∧
    (dc_parser_set_data p data size).2.data = data ∧
    (dc_parser_set_data p data size).2.size = size ∧
    (dc_parser_set_data p data size).2.sample_interval = byteAt data 26 := by
  simp only [dc_parser_set_data, deepsix_parser_set_data, if_neg h]
  exact ⟨trivial, trivial, trivial, trivial⟩

/-- With a NULL callback every iteration of the sample loop delivers nothing. -/
lemma sample_loop_no_callback (body : List Nat) (interval : Nat) :
    ∀ n, sample_loop body interval false n = [] := by
  intro n
  induction n with
  | zero => rfl
  | succ n ih => simp [sample_loop, ih, sample_iteration]

/-- With a non-NULL callback each iteration delivers exactly three values. -/
lemma sample_loop_length (body : List Nat) (interval : Nat) :
    ∀ n, (sample_loop body interval true n).length = 3 * n := by
  intro n
  induction n with
  | zero => rfl
  | succ n ih =>
    simp [sample_loop, ih, sample_iteration]
    ring

/-- C10: calling `get_field` with a NULL value output pointer returns
invalid-argument for every parser state, fact type and index, before any
presence check, and writes no value. -/
theorem C10_get_field_null_value (p : deepsix_parser_t) (type : dc_field_type_t)
    (flags : Nat) :
    deepsix_parser_get_field p type flags false = (.INVALIDARGS, none) := rfl

/-- A concrete instance whose cache was populated by a successful `set_data`
of an all-zero 256-byte buffer. -/
def parser_after_zero_buffer : deepsix_parser_t :=
  (dc_parser_set_data (deepsix_parser_create dc_field_cache.zero 0)
    (List.replicate 256 0) 256).2

/-- C3, counterexample: a `set_data` with an empty buffer on an instance whose
cache was populated by an earlier successful `set_data` returns io-error but
leaves the cache populated (presence bitmask 3, not 0), so the cache is not in
a zeroed state after the failure. -/
theorem C3_counterexample :
    (dc_parser_set_data parser_after_zero_buffer [] 0).1 = dc_status_t.IOERROR ∧
    (dc_parser_set_data parser_after_zero_buffer [] 0).2.cache.initialized ≠ 0 := by
  constructor
  · rfl
  · have h : (dc_parser_set_data parser_after_zero_buffer [] 0).2.cache.initialized = 3 := rfl
    rw [h]
    decide

/-- C3 (amended): for every buffer shorter than 256 bytes, `set_data` returns
io-error and leaves the field cache exactly as it was before the call (so it
is zeroed only if it already was; the failed call never populates it, fully or
partially), for every prior instance state. -/
theorem C3_set_data_short_buffer (p : deepsix_parser_t) (data : List Nat) (size : Nat)
    (h : size < 256) :
    (dc_parser_set_data p data size).1 = dc_status_t.IOERROR ∧
    (dc_parser_set_data p data size).2.cache = p.cache := by
  simp [dc_parser_set_data, deepsix_parser_set_data, if_pos h]

/-- C3, witness: the amended theorem applied to a freshly created instance and
the empty buffer. -/
theorem C3_witness :
    (dc_parser_set_data (deepsix_parser_create dc_field_cache.zero 0) [] 0).1 = dc_status_t.IOERROR ∧
    (dc_parser_set_data (deepsix_parser_create dc_field_cache.zero 0) [] 0).2.cache =
      (deepsix_parser_create dc_field_cache.zero 0).cache :=
  C3_set_data_short_buffer (deepsix_parser_create dc_field_cache.zero 0) [] 0 (by decide)

/-- C9: for every instance whose stored buffer size is at least 256 (in
particular any instance holding a buffer of at least 256 bytes after
`set_data`), `foreach_sample` with a NULL callback returns success and
performs zero deliveries, whatever the body length. -/
theorem C9_foreach_null_callback (p : deepsix_parser_t) (h : 256 ≤ p.size) :
    (deepsix_parser_samples_foreach p false).1 = dc_status_t.SUCCESS ∧
    (deepsix_parser_samples_foreach p false).2.1 = [] := by
  simp [deepsix_parser_samples_foreach, Nat.not_lt.mpr h, sample_loop_no_callback]

/-- C9, witness: the theorem applied to the instance holding the all-zero
256-byte buffer. -/
theorem C9_witness :
    (deepsix_parser_samples_foreach parser_after_zero_buffer false).1 = dc_status_t.SUCCESS ∧
    (deepsix_parser_samples_foreach parser_after_zero_buffer false).2.1 = [] :=
  C9_foreach_null_callback parser_after_zero_buffer (by decide)

/-- Reading a byte of the body (the data pointer advanced past the header) is
reading the underlying buffer at the shifted offset. -/
lemma byteAt_drop (l : List Nat) (n m : Nat) : byteAt (l.drop n) m = byteAt l (n + m) := by
  simp [byteAt, List.getD_eq_getElem?_getD, List.getElem?_drop]

/-- Little-endian reads of the body shift the same way. -/
lemma le16_drop (l : List Nat) (n m : Nat) : le16 (l.drop n) m = le16 l (n + m) := by
  simp [le16, byteAt_drop, Nat.add_assoc]

/-- The sample loop is the in-order concatenation of the per-record
deliveries. -/
lemma sample_loop_eq_flatMap (body : List Nat) (interval : Nat) (n : Nat) :
    sample_loop body interval true n =
      (List.range n).flatMap (fun i => sample_iteration body interval true i) := by
  induction n with
  | zero => rfl
  | succ n ih => simp [sample_loop, List.range_succ, ih]

/-- Closed form of `foreach_sample` once the stored size passes the header
check. -/
lemma foreach_success (p : deepsix_parser_t) (cb : Bool) (h : ¬ p.size < 256) :
    deepsix_parser_samples_foreach p cb =
      (.SUCCESS, sample_loop (p.data.drop 256) p.sample_interval cb ((p.size - 256) / 4),
        { p with callback := cb }) := by
  simp only [deepsix_parser_samples_foreach]
  rw [if_neg h]

/-- C8: for every body of `4*k + r` bytes (`0 < r < 4`) following the 256-byte
header, `foreach_sample` after a successful `set_data` returns success and
performs the deliveries of exactly `k` records (`3*k` deliveries); the
trailing `r` bytes produce neither deliveries nor an error. -/
theorem C8_truncation (cache0 : dc_field_cache) (si0 : Nat) (buf : List Nat) (k r : Nat)
    (hr0 : 0 < r) (hr4 : r < 4) (hlen : buf.length = 256 + 4 * k + r) :
    (deepsix_parser_samples_foreach
        (dc_parser_set_data (deepsix_parser_create cache0 si0) buf buf.length).2 true).1
      = dc_status_t.SUCCESS ∧
    (deepsix_parser_samples_foreach
        (dc_parser_set_data (deepsix_parser_create cache0 si0) buf buf.length).2 true).2.1.length
      = 3 * k := by
  obtain ⟨-, hdata, hsize, hsi⟩ :=
    dc_parser_set_data_base (deepsix_parser_create cache0 si0) buf buf.length (by omega)
  rw [foreach_success _ true (by rw [hsize]; omega)]
  refine ⟨rfl, ?_⟩
  rw [sample_loop_length, hsize, hlen]
  omega

/-- C8, witness: a 263-byte buffer (body of 7 bytes, `k = 1`, `r = 3`) decodes
exactly one record. -/
theorem C8_witness :
    (deepsix_parser_samples_foreach
        (dc_parser_set_data (deepsix_parser_create dc_field_cache.zero 0)
          (List.replicate 263 0) (List.replicate 263 0).length).2 true).1
      = dc_status_t.SUCCESS ∧
    (deepsix_parser_samples_foreach
        (dc_parser_set_data (deepsix_parser_create dc_field_cache.zero 0)
          (List.replicate 263 0) (List.replicate 263 0).length).2 true).2.1.length
      = 3 * 1 :=
  C8_truncation dc_field_cache.zero 0 (List.replicate 263 0) 1 3
    (by decide) (by decide) (by rw [List.length_replicate])

/-- The three deliveries of one record, read at the original buffer's offsets
(the body starts at offset 256). -/
lemma sample_iteration_drop (buf : List Nat) (interval : Nat) (i : Nat) :
    sample_iteration (buf.drop 256) interval true i =
      [(dc_sample_type_t.TIME, dc_sample_value_t.time ((i + 1) * interval)),
       (dc_sample_type_t.DEPTH,
         dc_sample_value_t.depth (pressure_to_depth (le16 buf (256 + 4 * i + 2)))),
       (dc_sample_type_t.TEMPERATURE,
         dc_sample_value_t.temperature ((le16 buf (256 + 4 * i) : ℚ) / 10))] := by
  simp only [sample_iteration, le16, byteAt_drop, if_true]
  norm_num [Nat.add_assoc]

/-- C1: for every buffer of `256 + L` bytes, `set_data` succeeds and a
subsequent `foreach_sample` with a non-NULL callback succeeds, delivering, for
each of the `floor(L/4)` 4-byte records in order, exactly the three tagged
values time (record index times header byte 26), depth (second little-endian
16-bit field through the pressure-to-depth conversion) and temperature (first
little-endian 16-bit field divided by 10) — `3 * floor(L/4)` deliveries in
total. -/
theorem C1_stream_deliveries (cache0 : dc_field_cache) (si0 : Nat) (buf : List Nat) (L : Nat)
    (hlen : buf.length = 256 + L) :
    (dc_parser_set_data (deepsix_parser_create cache0 si0) buf buf.length).1
      = dc_status_t.SUCCESS ∧
    (deepsix_parser_samples_foreach
        (dc_parser_set_data (deepsix_parser_create cache0 si0) buf buf.length).2 true).1
      = dc_status_t.SUCCESS ∧
    (deepsix_parser_samples_foreach
        (dc_parser_set_data (deepsix_parser_create cache0 si0) buf buf.length).2 true).2.1
      = (List.range (L / 4)).flatMap (fun i =>
          [(dc_sample_type_t.TIME, dc_sample_value_t.time ((i + 1) * byteAt buf 26)),
           (dc_sample_type_t.DEPTH,
             dc_sample_value_t.depth (pressure_to_depth (le16 buf (256 + 4 * i + 2)))),
           (dc_sample_type_t.TEMPERATURE,
             dc_sample_value_t.temperature ((le16 buf (256 + 4 * i) : ℚ) / 10))]) ∧
    (deepsix_parser_samples_foreach
        (dc_parser_set_data (deepsix_parser_create cache0 si0) buf buf.length).2 true).2.1.length
      = 3 * (L / 4) := by
  obtain ⟨hst, hdata, hsize, hsi⟩ :=
    dc_parser_set_data_base (deepsix_parser_create cache0 si0) buf buf.length (by omega)
  refine ⟨hst, ?_, ?_, ?_⟩
  · rw [foreach_success _ true (by rw [hsize]; omega)]
  · rw [foreach_success _ true (by rw [hsize]; omega)]
    show sample_loop _ _ _ _ = _
    rw [sample_loop_eq_flatMap, hdata, hsize, hsi, hlen,
      show 256 + L - 256 = L from by omega]
    simp only [sample_iteration_drop]
  · rw [foreach_success _ true (by rw [hsize]; omega)]
    show (sample_loop _ _ _ _).length = _
    rw [sample_loop_length, hsize, hlen]
    omega

/-- C1, witness: the theorem applied to an all-zero 260-byte buffer
(`L = 4`, one record). -/
theorem C1_witness :
    (dc_parser_set_data (deepsix_parser_create dc_field_cache.zero 0)
        (List.replicate 260 0) (List.replicate 260 0).length).1
      = dc_status_t.SUCCESS ∧
    (deepsix_parser_samples_foreach
        (dc_parser_set_data (deepsix_parser_create dc_field_cache.zero 0)
          (List.replicate 260 0) (List.replicate 260 0).length).2 true).1
      = dc_status_t.SUCCESS ∧
    (deepsix_parser_samples_foreach
        (dc_parser_set_data (deepsix_parser_create dc_field_cache.zero 0)
          (List.replicate 260 0) (List.replicate 260 0).length).2 true).2.1
      = (List.range (4 / 4)).flatMap (fun i =>
          [(dc_sample_type_t.TIME,
             dc_sample_value_t.time ((i + 1) * byteAt (List.replicate 260 0) 26)),
           (dc_sample_type_t.DEPTH,
             dc_sample_value_t.depth
               (pressure_to_depth (le16 (List.replicate 260 0) (256 + 4 * i + 2)))),
           (dc_sample_type_t.TEMPERATURE,
             dc_sample_value_t.temperature
               ((le16 (List.replicate 260 0) (256 + 4 * i) : ℚ) / 10))]) ∧
    (deepsix_parser_samples_foreach
        (dc_parser_set_data (deepsix_parser_create dc_field_cache.zero 0)
          (List.replicate 260 0) (List.replicate 260 0).length).2 true).2.1.length
      = 3 * (4 / 4) :=
  C1_stream_deliveries dc_field_cache.zero 0 (List.replicate 260 0) 4
    (by rw [List.length_replicate])

/-- After a successful `set_data` of a scuba dive (activity byte 2), the cache
holds exactly: one gas mix at index 0 with oxygen `byte3/100`, gas-mix count
1, dive-mode open-circuit, the duration normalized from minutes to seconds and
the maximum depth, with presence bits for exactly those five facts
(bitmask 4123 = bits {DIVETIME, MAXDEPTH, GASMIX_COUNT, GASMIX, DIVEMODE}). -/
lemma set_data_cache_scuba (p : deepsix_parser_t) (data : List Nat) (size : Nat)
    (h : ¬ size < 256) (hb2 : byteAt data 2 = 2) :
    (dc_parser_set_data p data size).2.cache =
      { initialized := 4123,
        DIVETIME := le16 data 12 * 60,
        MAXDEPTH := pressure_to_depth (le16 data 22),
        AVGDEPTH := 0,
        GASMIX_COUNT := 1,
        GASMIX := Function.update dc_field_cache.zero.GASMIX ⟨0, by decide⟩
          { dc_gasmix_t.zero with oxygen := (byteAt data 3 : ℚ) / 100.0 },
        SALINITY := 0,
        ATMOSPHERIC := 0,
        DIVEMODE := dc_divemode_t.OC,
        strings := [] } := by
  simp only [dc_parser_set_data, deepsix_parser_set_data, if_neg h, hb2]
  simp [dc_field_cache.zero, dc_field_cache.setBit]
  decide

/-- After a successful `set_data` of a gauge dive (activity byte 3), the cache
holds dive-mode gauge, the duration normalized from minutes to seconds and the
maximum depth (bitmask 4099 = bits {DIVETIME, MAXDEPTH, DIVEMODE}). -/
lemma set_data_cache_gauge (p : deepsix_parser_t) (data : List Nat) (size : Nat)
    (h : ¬ size < 256) (hb2 : byteAt data 2 = 3) :
    (dc_parser_set_data p data size).2.cache =
      { initialized := 4099,
        DIVETIME := le16 data 12 * 60,
        MAXDEPTH := pressure_to_depth (le16 data 22),
        AVGDEPTH := 0,
        GASMIX_COUNT := 0,
        GASMIX := dc_field_cache.zero.GASMIX,
        SALINITY := 0,
        ATMOSPHERIC := 0,
        DIVEMODE := dc_divemode_t.GAUGE,
        strings := [] } := by
  simp only [dc_parser_set_data, deepsix_parser_set_data, if_neg h, hb2]
  simp [dc_field_cache.zero, dc_field_cache.setBit]
  decide

/-- After a successful `set_data` of a freedive (activity byte 4), the cache
holds dive-mode freedive, the duration kept in seconds (not multiplied) and
the maximum depth (bitmask 4099 = bits {DIVETIME, MAXDEPTH, DIVEMODE}). -/
lemma set_data_cache_freedive (p : deepsix_parser_t) (data : List Nat) (size : Nat)
    (h : ¬ size < 256) (hb2 : byteAt data 2 = 4) :
    (dc_parser_set_data p data size).2.cache =
      { initialized := 4099,
        DIVETIME := le16 data 12,
        MAXDEPTH := pressure_to_depth (le16 data 22),
        AVGDEPTH := 0,
        GASMIX_COUNT := 0,
        GASMIX := dc_field_cache.zero.GASMIX,
        SALINITY := 0,
        ATMOSPHERIC := 0,
        DIVEMODE := dc_divemode_t.FREEDIVE,
        strings := [] } := by
  simp only [dc_parser_set_data, deepsix_parser_set_data, if_neg h, hb2]
  simp [dc_field_cache.zero, dc_field_cache.setBit]
  decide

/-- After a successful `set_data` with an unrecognized activity byte, the
cache holds only the raw duration and the maximum depth (bitmask 3 = bits
{DIVETIME, MAXDEPTH}); the gas mix, gas-mix count and dive mode stay unset. -/
lemma set_data_cache_default (p : deepsix_parser_t) (data : List Nat) (size : Nat)
    (h : ¬ size < 256) (h2 : byteAt data 2 ≠ 2) (h3 : byteAt data 2 ≠ 3)
    (h4 : byteAt data 2 ≠ 4) :
    (dc_parser_set_data p data size).2.cache =
      { initialized := 3,
        DIVETIME := le16 data 12,
        MAXDEPTH := pressure_to_depth (le16 data 22),
        AVGDEPTH := 0,
        GASMIX_COUNT := 0,
        GASMIX := dc_field_cache.zero.GASMIX,
        SALINITY := 0,
        ATMOSPHERIC := 0,
        DIVEMODE := dc_divemode_t.FREEDIVE,
        strings := [] } := by
  simp only [dc_parser_set_data, deepsix_parser_set_data, if_neg h]
  simp [dc_field_cache.zero, dc_field_cache.setBit]
  decide

/-- A 256-byte scuba header: activity byte 2, oxygen byte 32, raw duration 10
minutes at bytes 12-13. -/
def scuba_buffer : List Nat :=
  [0, 0, 2, 32, 0, 0, 0, 0, 0, 0, 0, 0, 10, 0] ++ List.replicate 242 0

/-- A 256-byte freedive header: activity byte 4, raw duration 10 seconds at
bytes 12-13. -/
def freedive_buffer : List Nat :=
  [0, 0, 4, 0, 0, 0, 0, 0, 0, 0, 0, 0, 10, 0] ++ List.replicate 242 0

/-- C4: on a buffer of at least 256 bytes with activity byte 2 (open-circuit
scuba) and oxygen byte 32, a successful `set_data` stores exactly one gas mix
(index 0 has oxygen fraction 0.32; every higher index yields no value),
gas-mix count 1, dive-mode open-circuit, and the duration in seconds obtained
by multiplying the raw 16-bit minute count by 60; with activity byte 4
(freedive) the raw duration is stored unmultiplied. -/
theorem C4_activity_mapping (p : deepsix_parser_t) (data : List Nat) (size : Nat)
    (h : 256 ≤ size) :
    (byteAt data 2 = 2 → byteAt data 3 = 32 →
      deepsix_parser_get_field (dc_parser_set_data p data size).2 .GASMIX 0 true
        = (.SUCCESS, some (.gasmix { helium := 0, oxygen := 32 / 100, nitrogen := 0 })) ∧
      deepsix_parser_get_field (dc_parser_set_data p data size).2 .GASMIX_COUNT 0 true
        = (.SUCCESS, some (.uint 1)) ∧
      (∀ i, 0 < i →
        (deepsix_parser_get_field (dc_parser_set_data p data size).2 .GASMIX i true).2 = none) ∧
      deepsix_parser_get_field (dc_parser_set_data p data size).2 .DIVEMODE 0 true
        = (.SUCCESS, some (.divemode .OC)) ∧
      deepsix_parser_get_field (dc_parser_set_data p data size).2 .DIVETIME 0 true
        = (.SUCCESS, some (.uint (le16 data 12 * 60)))) ∧
    (byteAt data 2 = 4 →
      deepsix_parser_get_field (dc_parser_set_data p data size).2 .DIVETIME 0 true
        = (.SUCCESS, some (.uint (le16 data 12)))) := by
  constructor
  · intro hb2 hb3
    have hc := set_data_cache_scuba p data size (by omega) hb2
    have hbG : Nat.testBit 4123 dc_field_type_t.GASMIX.toNat = true := by decide
    have hbGC : Nat.testBit 4123 dc_field_type_t.GASMIX_COUNT.toNat = true := by decide
    have hbDM : Nat.testBit 4123 dc_field_type_t.DIVEMODE.toNat = true := by decide
    have hbDT : Nat.testBit 4123 dc_field_type_t.DIVETIME.toNat = true := by decide
    refine ⟨?_, ?_, ?_, ?_, ?_⟩
    · simp [deepsix_parser_get_field, dc_field_cache.hasBit, hc, hbG, MAXGASES,
        dc_field_cache.get_indexed, Function.update, dc_gasmix_t.zero, hb3]
      norm_num
    · simp [deepsix_parser_get_field, dc_field_cache.hasBit, hc, hbGC]
    · intro i hi
      by_cases hlt : MAXGASES ≤ i
      · simp [deepsix_parser_get_field, dc_field_cache.hasBit, hc, hbG, hlt]
      · have h1 : ¬ i < 1 := by omega
        simp [deepsix_parser_get_field, dc_field_cache.hasBit, hc, hbG, hlt,
          dc_field_cache.get_indexed, h1]
    · simp [deepsix_parser_get_field, dc_field_cache.hasBit, hc, hbDM]
    · simp [deepsix_parser_get_field, dc_field_cache.hasBit, hc, hbDT]
  · intro hb2
    have hc := set_data_cache_freedive p data size (by omega) hb2
    have hbDT : Nat.testBit 4099 dc_field_type_t.DIVETIME.toNat = true := by decide
    simp [deepsix_parser_get_field, dc_field_cache.hasBit, hc, hbDT]

/-- C4, witness: the theorem applied to a scuba header with raw duration 10
(stored as 600 seconds) and a freedive header with raw duration 10 (stored as
10 seconds). -/
theorem C4_witness :
    deepsix_parser_get_field
        (dc_parser_set_data (deepsix_parser_create dc_field_cache.zero 0) scuba_buffer 256).2
        .DIVETIME 0 true
      = (.SUCCESS, some (.uint (le16 scuba_buffer 12 * 60))) ∧
    deepsix_parser_get_field
        (dc_parser_set_data (deepsix_parser_create dc_field_cache.zero 0) freedive_buffer 256).2
        .DIVETIME 0 true
      = (.SUCCESS, some (.uint (le16 freedive_buffer 12))) :=
  ⟨((C4_activity_mapping (deepsix_parser_create dc_field_cache.zero 0) scuba_buffer 256
      (by decide)).1 (by decide) (by decide)).2.2.2.2,
   (C4_activity_mapping (deepsix_parser_create dc_field_cache.zero 0) freedive_buffer 256
      (by decide)).2 (by decide)⟩

/-- C7: for every buffer of at least 256 bytes whose activity byte is not 2, 3
or 4, `set_data` still returns success; the dependent facts (gas mix, gas-mix
count, dive mode) are left unset and reading them fails unsupported, while the
raw duration and the maximum depth are still parsed and assigned. -/
theorem C7_unknown_activity (p : deepsix_parser_t) (data : List Nat) (size : Nat)
    (h : 256 ≤ size) (h2 : byteAt data 2 ≠ 2) (h3 : byteAt data 2 ≠ 3)
    (h4 : byteAt data 2 ≠ 4) :
    (dc_parser_set_data p data size).1 = dc_status_t.SUCCESS ∧
    (∀ flags, deepsix_parser_get_field (dc_parser_set_data p data size).2 .GASMIX flags true
      = (.UNSUPPORTED, none)) ∧
    deepsix_parser_get_field (dc_parser_set_data p data size).2 .GASMIX_COUNT 0 true
      = (.UNSUPPORTED, none) ∧
    deepsix_parser_get_field (dc_parser_set_data p data size).2 .DIVEMODE 0 true
      = (.UNSUPPORTED, none) ∧
    deepsix_parser_get_field (dc_parser_set_data p data size).2 .DIVETIME 0 true
      = (.SUCCESS, some (.uint (le16 data 12))) ∧
    deepsix_parser_get_field (dc_parser_set_data p data size).2 .MAXDEPTH 0 true
      = (.SUCCESS, some (.double (pressure_to_depth (le16 data 22)))) := by
  have hc := set_data_cache_default p data size (by omega) h2 h3 h4
  obtain ⟨hst, -, -, -⟩ := dc_parser_set_data_base p data size (by omega)
  have hbDT : Nat.testBit 3 dc_field_type_t.DIVETIME.toNat = true := by decide
  have hbMD : Nat.testBit 3 dc_field_type_t.MAXDEPTH.toNat = true := by decide
  have hbG : Nat.testBit 3 dc_field_type_t.GASMIX.toNat = false := by decide
  have hbGC : Nat.testBit 3 dc_field_type_t.GASMIX_COUNT.toNat = false := by decide
  have hbDM : Nat.testBit 3 dc_field_type_t.DIVEMODE.toNat = false := by decide
  refine ⟨hst, ?_, ?_, ?_, ?_, ?_⟩
  · intro flags
    simp [deepsix_parser_get_field, dc_field_cache.hasBit, hc, hbG]
  · simp [deepsix_parser_get_field, dc_field_cache.hasBit, hc, hbGC]
  · simp [deepsix_parser_get_field, dc_field_cache.hasBit, hc, hbDM]
  · simp [deepsix_parser_get_field, dc_field_cache.hasBit, hc, hbDT]
  · simp [deepsix_parser_get_field, dc_field_cache.hasBit, hc, hbMD]

/-- C7, witness: the theorem applied to a 256-byte buffer whose activity byte
is 7. -/
theorem C7_witness :
    deepsix_parser_get_field
        (dc_parser_set_data (deepsix_parser_create dc_field_cache.zero 0)
          ([0, 0, 7] ++ List.replicate 253 0) 256).2 .DIVEMODE 0 true
      = (.UNSUPPORTED, none) :=
  (C7_unknown_activity (deepsix_parser_create dc_field_cache.zero 0)
    ([0, 0, 7] ++ List.replicate 253 0) 256 (by decide) (by decide) (by decide)
    (by decide)).2.2.2.1

/-- C6: the nine fact types that no branch of `set_data` ever assigns (average
depth, salinity, atmospheric pressure, the three temperatures, tank count,
tank, string) read as unsupported with no value after every successful
`set_data`, whatever the buffer, the requested index and the instance's prior
cache contents. -/
theorem C6_presence_invariant (p : deepsix_parser_t) (data : List Nat) (size : Nat)
    (t : dc_field_type_t) (flags : Nat) (h : 256 ≤ size)
    (ht : t ∈ [dc_field_type_t.AVGDEPTH, .SALINITY, .ATMOSPHERIC,
      .TEMPERATURE_SURFACE, .TEMPERATURE_MINIMUM, .TEMPERATURE_MAXIMUM,
      .TANK_COUNT, .TANK, .STRING]) :
    deepsix_parser_get_field (dc_parser_set_data p data size).2 t flags true
      = (.UNSUPPORTED, none) := by
  have hmask : (dc_parser_set_data p data size).2.cache.initialized = 4123 ∨
      (dc_parser_set_data p data size).2.cache.initialized = 4099 ∨
      (dc_parser_set_data p data size).2.cache.initialized = 3 := by
    by_cases hb2 : byteAt data 2 = 2
    · exact Or.inl (by rw [set_data_cache_scuba p data size (by omega) hb2])
    · by_cases hb3 : byteAt data 2 = 3
      · exact Or.inr (Or.inl (by rw [set_data_cache_gauge p data size (by omega) hb3]))
      · by_cases hb4 : byteAt data 2 = 4
        · exact Or.inr (Or.inl (by rw [set_data_cache_freedive p data size (by omega) hb4]))
        · exact Or.inr (Or.inr
            (by rw [set_data_cache_default p data size (by omega) hb2 hb3 hb4]))
  have hbit : (dc_parser_set_data p data size).2.cache.hasBit t = false := by
    rcases hmask with hm | hm | hm <;>
      simp only [dc_field_cache.hasBit, hm] <;> fin_cases ht <;> decide
  simp [deepsix_parser_get_field, hbit]

/-- C6, witness: the theorem applied to the all-zero 256-byte buffer and the
atmospheric-pressure fact. -/
theorem C6_witness :
    deepsix_parser_get_field
        (dc_parser_set_data (deepsix_parser_create dc_field_cache.zero 0)
          (List.replicate 256 0) 256).2 .ATMOSPHERIC 0 true
      = (.UNSUPPORTED, none) :=
  C6_presence_invariant (deepsix_parser_create dc_field_cache.zero 0)
    (List.replicate 256 0) 256 .ATMOSPHERIC 0 (by decide) (by decide)

/-- The instance decoded from the scuba header, used to exercise the gas-mix
index range checks. -/
def scuba_instance : deepsix_parser_t :=
  (dc_parser_set_data (deepsix_parser_create dc_field_cache.zero 0) scuba_buffer 256).2

/-- C5, counterexample: with one recorded gas mix, requesting gas-mix index 16
(the fixed capacity) returns unsupported, not invalid-argument as the claim
demands for every index at or above the capacity. -/
theorem C5_counterexample :
    (deepsix_parser_get_field scuba_instance .GASMIX 16 true).1 = dc_status_t.UNSUPPORTED ∧
    (deepsix_parser_get_field scuba_instance .GASMIX 16 true).1 ≠ dc_status_t.INVALIDARGS := by
  constructor <;> decide

/-- C5 (amended): after a successful scuba `set_data` (one recorded gas mix),
`get_field(GASMIX, index)` fails unsupported for every index at or above the
fixed capacity `MAXGASES` (16), and fails invalid-argument for every index
below the capacity but at or above the recorded gas-mix count; it never yields
a value at an out-of-range index. -/
theorem C5_gasmix_index_range (p : deepsix_parser_t) (data : List Nat) (size : Nat)
    (h : 256 ≤ size) (hb2 : byteAt data 2 = 2) :
    (∀ flags, MAXGASES ≤ flags →
      deepsix_parser_get_field (dc_parser_set_data p data size).2 .GASMIX flags true
        = (.UNSUPPORTED, none)) ∧
    (∀ flags, 1 ≤ flags → flags < MAXGASES →
      deepsix_parser_get_field (dc_parser_set_data p data size).2 .GASMIX flags true
        = (.INVALIDARGS, none)) := by
  have hc := set_data_cache_scuba p data size (by omega) hb2
  have hbG : Nat.testBit 4123 dc_field_type_t.GASMIX.toNat = true := by decide
  constructor
  · intro flags hf
    simp [deepsix_parser_get_field, dc_field_cache.hasBit, hc, hbG, hf]
  · intro flags hf1 hf2
    have hnle : ¬ MAXGASES ≤ flags := by omega
    have hcount : ¬ flags < 1 := by omega
    simp [deepsix_parser_get_field, dc_field_cache.hasBit, hc, hbG, hnle,
      dc_field_cache.get_indexed, hcount]

/-- C5, witness: the amended theorem applied to the scuba header at indices 16
(capacity) and 1 (above the count of 1). -/
theorem C5_witness :
    deepsix_parser_get_field
        (dc_parser_set_data (deepsix_parser_create dc_field_cache.zero 0) scuba_buffer 256).2
        .GASMIX 16 true = (.UNSUPPORTED, none) ∧
    deepsix_parser_get_field
        (dc_parser_set_data (deepsix_parser_create dc_field_cache.zero 0) scuba_buffer 256).2
        .GASMIX 1 true = (.INVALIDARGS, none) :=
  ⟨(C5_gasmix_index_range (deepsix_parser_create dc_field_cache.zero 0) scuba_buffer 256
      (by decide) (by decide)).1 16 (by decide),
   (C5_gasmix_index_range (deepsix_parser_create dc_field_cache.zero 0) scuba_buffer 256
      (by decide) (by decide)).2 1 (by decide) (by decide)⟩
